import Mathlib

set_option autoImplicit false

/-!
Shallow embedding of `src/server.js`: an Express HTTP gateway exposing CRUD
endpoints over three backing stores (a MongoDB document store for `Usuario`
records, an AWS S3 object store for buckets/files, and a MySQL relational
store for `produto` rows).

Each route handler of the source is translated into a pure Lean function
from its request inputs, a fault schedule describing which backing-store
call (if any) throws during the execution, and the backing-store state, to
the HTTP response produced together with the resulting store state.
-/

/-! ## Data of the three stores -/

/-- A `produto` row of the MySQL table (`CREATE TABLE` in the `/init-db`
handler): auto-increment integer `Id`, and the three payload columns.
`Preco` is kept as the submitted scalar, uninterpreted. -/
structure Product where
  Id : Nat
  Nome : String
  Descricao : String
  Preco : String
deriving DecidableEq, Repr

/-- A MongoDB `Usuario` document: the store-assigned identifier plus the
fields of the JSON body it was created/updated from, as a field list. -/
structure UserDoc where
  id : Nat
  fields : List (String × String)
deriving DecidableEq, Repr

/-- An object stored in an S3 bucket: key (the uploaded file's original
name), content and content type. -/
structure S3Object where
  key : String
  content : String
  contentType : String
deriving DecidableEq, Repr

/-- A multipart file as produced by `multer` (`req.file`): original name,
in-memory buffer and mime type. -/
structure FileUpload where
  originalname : String
  buffer : String
  mimetype : String
deriving DecidableEq, Repr

/-! ## HTTP responses -/

/-- Response bodies the handlers of `server.js` produce, one constructor per
shape of `res.send`/`res.json` argument appearing in the source. -/
inductive Body where
  | text (s : String)
  | jsonMsg (s : String)
  | jsonErr (s : String)
  | jsonErrDetails (err details : String)
  | jsonMsgErr (msg err : String)
  | jsonMsgData (msg bucket key : String)
  | jsonUser (u : UserDoc)
  | jsonUsers (us : List UserDoc)
  | jsonBuckets (names : List String)
  | jsonObjects (objs : List S3Object)
  | jsonProduct (p : Product)
  | jsonProducts (ps : List Product)
  | jsonId (n : Nat)
deriving DecidableEq, Repr

/-- An HTTP response: status code and body. -/
structure Resp where
  status : Nat
  body : Body
deriving DecidableEq, Repr

/-! ## MongoDB document store

The mongoose client casts the `:id` route parameter to an `ObjectId`; a
string that is not a well-formed ObjectId makes the lookup call throw a
`CastError`, which the handlers catch like any other error. We model
ObjectId strings as 24 hexadecimal characters, identifiers internally as
naturals, with an explicit encode/decode pair. -/

/-- Whether a character is a hexadecimal digit (0-9, a-f, A-F). -/
def isHexDigit (c : Char) : Bool :=
  (48 ≤ c.toNat && c.toNat ≤ 57) || (97 ≤ c.toNat && c.toNat ≤ 102) ||
    (65 ≤ c.toNat && c.toNat ≤ 70)

/-- Value of a hexadecimal digit character. -/
def hexVal (c : Char) : Nat :=
  if c.toNat ≤ 57 then c.toNat - 48
  else if 97 ≤ c.toNat then c.toNat - 87
  else c.toNat - 55

/-- The lowercase hexadecimal digit character for `n < 16`. -/
def hexChar (n : Nat) : Char :=
  if n < 10 then Char.ofNat (48 + n) else Char.ofNat (87 + n)

/-- Decode a little-endian list of hexadecimal digit characters. -/
def decodeHex : List Char → Nat
  | [] => 0
  | c :: cs => hexVal c + 16 * decodeHex cs

/-- Encode `v` as `w` little-endian hexadecimal digit characters. -/
def encodeHex : Nat → Nat → List Char
  | 0, _ => []
  | w + 1, v => hexChar (v % 16) :: encodeHex w (v / 16)

/-- Models the mongoose ObjectId well-formedness check on a route
parameter: 24 hexadecimal characters. -/
def isValidObjectId (s : String) : Bool :=
  s.data.length == 24 && s.data.all isHexDigit

/-- Models the mongoose cast of a route parameter to an ObjectId: `none`
is a `CastError`. -/
def parseOId (s : String) : Option Nat :=
  if isValidObjectId s then some (decodeHex s.data) else none

/-- Serialization of a store-assigned identifier as an ObjectId string. -/
def oidToString (n : Nat) : String :=
  String.mk (encodeHex 24 n)

/-- State of the document store: the stored documents and the next
identifier the store will assign. -/
structure MongoState where
  docs : List UserDoc
  nextId : Nat
deriving DecidableEq, Repr

/-- Fault schedule for a document-store call: it succeeds, or throws with a
validation error, or throws with an infrastructure error. -/
inductive MongoFault where
  | ok
  | validationError
  | infraError
deriving DecidableEq, Repr

/-- The paths of the mongoose `UserSchema` (`server.js` lines 49-54): a
`nome` string and an `email` string. -/
def userSchemaPaths : List String := ["nome", "email"]

/-- Mongoose default strict mode: building or updating a `User` document
from a body keeps only the schema paths, silently dropping every other
field. -/
def stripToSchema (body : List (String × String)) :
    List (String × String) :=
  body.filter (fun kv => userSchemaPaths.contains kv.1)

/-- Handler of `POST /usuarios` (`server.js` lines 127-137): build a `User`
from the JSON body — the schema's default strict mode retains only the
schema paths — `save()` it, respond 201 with the stored document; any error
is caught and answered 500 with the fixed generic message. -/
def usuariosCreate (body : List (String × String)) (f : MongoFault)
    (s : MongoState) : Resp × MongoState :=
  match f with
  | .ok =>
      let u : UserDoc := ⟨s.nextId, stripToSchema body⟩
      (⟨201, .jsonUser u⟩, ⟨s.docs ++ [u], s.nextId + 1⟩)
  | _ => (⟨500, .text "Ocorreu um erro interno"⟩, s)

/-- Handler of `GET /usuarios` (lines 139-148): `User.find()`, respond with
the list; errors become 500 with the fixed generic message. -/
def usuariosList (f : MongoFault) (s : MongoState) : Resp × MongoState :=
  match f with
  | .ok => (⟨200, .jsonUsers s.docs⟩, s)
  | _ => (⟨500, .text "Ocorreu um erro interno"⟩, s)

/-- Handler of `GET /usuarios/:id` (lines 150-161): `User.findById`; a
malformed id makes the lookup throw (`CastError`), caught as 500; a missing
record answers 404; otherwise 200 with the document. -/
def usuariosGetById (idStr : String) (f : MongoFault) (s : MongoState) :
    Resp × MongoState :=
  match f with
  | .ok =>
      match parseOId idStr with
      | none => (⟨500, .text "Ocorreu um erro interno"⟩, s)
      | some i =>
          match s.docs.find? (fun u => u.id == i) with
          | none => (⟨404, .text "Usuário não encontrado"⟩, s)
          | some u => (⟨200, .jsonUser u⟩, s)
  | _ => (⟨500, .text "Ocorreu um erro interno"⟩, s)

/-- Set one field of a document's field list, overriding an existing key or
appending a new one. -/
def setField (fields : List (String × String)) (kv : String × String) :
    List (String × String) :=
  if fields.any (fun p => p.1 == kv.1) then
    fields.map (fun p => if p.1 == kv.1 then (p.1, kv.2) else p)
  else fields ++ [kv]

/-- Merge the fields of an update body into a document's fields, as
`findByIdAndUpdate` does. -/
def mergeFields (old body : List (String × String)) :
    List (String × String) :=
  body.foldl setField old

/-- Handler of `PUT /usuarios/:id` (lines 163-174): `findByIdAndUpdate`
with `new: true`; malformed id throws (500), missing record answers 404,
otherwise the provided fields — restricted to the schema paths by strict
mode — are merged into the document, which is stored and returned with
200. -/
def usuariosUpdate (idStr : String) (body : List (String × String))
    (f : MongoFault) (s : MongoState) : Resp × MongoState :=
  match f with
  | .ok =>
      match parseOId idStr with
      | none => (⟨500, .text "Ocorreu um erro interno"⟩, s)
      | some i =>
          match s.docs.find? (fun u => u.id == i) with
          | none => (⟨404, .text "Usuário não encontrado"⟩, s)
          | some u =>
              let u' : UserDoc := ⟨u.id, mergeFields u.fields (stripToSchema body)⟩
              (⟨200, .jsonUser u'⟩,
               ⟨s.docs.map (fun v => if v.id == i then u' else v), s.nextId⟩)
  | _ => (⟨500, .text "Ocorreu um erro interno"⟩, s)

/-- Handler of `DELETE /usuarios/:id` (lines 176-189): `User.deleteOne` on
the cast id; malformed id throws (500); `deletedCount === 0` answers 404;
otherwise the document is removed and a fixed confirmation is sent. -/
def usuariosDelete (idStr : String) (f : MongoFault) (s : MongoState) :
    Resp × MongoState :=
  match f with
  | .ok =>
      match parseOId idStr with
      | none => (⟨500, .text "Ocorreu um erro interno"⟩, s)
      | some i =>
          let deletedCount := if s.docs.any (fun u => u.id == i) then 1 else 0
          if deletedCount == 0 then
            (⟨404, .text "Usuário não encontrado"⟩, s)
          else
            (⟨200, .jsonMsg "Usuário removido com sucesso"⟩,
             ⟨s.docs.eraseP (fun u => u.id == i), s.nextId⟩)
  | _ => (⟨500, .text "Ocorreu um erro interno"⟩, s)

/-! ## S3 object store -/

/-- State of the object store: buckets with their objects. -/
structure S3State where
  buckets : List (String × List S3Object)
deriving DecidableEq, Repr

/-- A call issued to the S3 client, for tracking which storage calls a
handler performs. -/
inductive S3Call where
  | listBuckets
  | listObjectsV2 (bucket : String)
  | upload (bucket key : String)
  | deleteObject (bucket key : String)
deriving DecidableEq, Repr

/-- Fault schedule for one S3 call: `some m` means the call throws with
error message `m`. -/
abbrev S3Fault := Option String

/-- Handler of `GET /buckets` (lines 205-214): `s3.listBuckets()`; errors
are answered 500 with a fixed label and the raw error message as details. -/
def bucketsList (f : S3Fault) (s : S3State) : Resp × S3State :=
  match f with
  | some m => (⟨500, .jsonErrDetails "Erro ao listar buckets" m⟩, s)
  | none => (⟨200, .jsonBuckets (s.buckets.map (fun b => b.1))⟩, s)

/-- Handler of `GET /buckets/:bucketName` (lines 216-228):
`s3.listObjectsV2`; errors are answered 500 with the raw error message as
details. -/
def bucketObjectsList (bucket : String) (f : S3Fault) (s : S3State) :
    Resp × S3State :=
  match f with
  | some m => (⟨500, .jsonErrDetails "Erro ao listar objetos do bucket" m⟩, s)
  | none =>
      (⟨200, .jsonObjects (((s.buckets.find? (fun b => b.1 == bucket)).map
        (fun b => b.2)).getD [])⟩, s)

/-- Store an object into a bucket, overwriting an existing object with the
same key. -/
def putObject (s : S3State) (bucket : String) (obj : S3Object) : S3State :=
  if s.buckets.any (fun b => b.1 == bucket) then
    ⟨s.buckets.map (fun b =>
      if b.1 == bucket then (b.1, b.2.filter (fun o => o.key != obj.key) ++ [obj])
      else b)⟩
  else ⟨s.buckets ++ [(bucket, [obj])]⟩

/-- Handler of `POST /buckets/:bucketName/upload` (lines 233-256): if
`req.file` is absent, answer 400 before any storage call; otherwise call
`s3.upload` with the file's original name as key; a throwing upload is
answered 500 with the raw error message. The third component records the
S3 calls the execution performed. -/
def bucketUpload (bucket : String) (file : Option FileUpload) (f : S3Fault)
    (s : S3State) : Resp × S3State × List S3Call :=
  match file with
  | none => (⟨400, .jsonMsg "Nenhum arquivo enviado."⟩, s, [])
  | some fl =>
      match f with
      | some m =>
          (⟨500, .jsonMsgErr "Erro no upload" m⟩, s,
           [.upload bucket fl.originalname])
      | none =>
          (⟨200, .jsonMsgData "Upload concluído com sucesso" bucket
             fl.originalname⟩,
           putObject s bucket ⟨fl.originalname, fl.buffer, fl.mimetype⟩,
           [.upload bucket fl.originalname])

/-- Remove the object with the given key from a bucket (no-op when the
bucket or the key is absent, as `s3.deleteObject` succeeds either way). -/
def removeObject (s : S3State) (bucket key : String) : S3State :=
  ⟨s.buckets.map (fun b =>
    if b.1 == bucket then (b.1, b.2.filter (fun o => o.key != key)) else b)⟩

/-- Handler of `DELETE /buckets/:bucketName/file/:fileName` (lines
258-273): `s3.deleteObject`; when the call does not throw the handler
answers 200 with a fixed confirmation, whether or not the object existed;
a throwing call is answered 500 with the raw error message. -/
def bucketFileDelete (bucket key : String) (f : S3Fault) (s : S3State) :
    Resp × S3State :=
  match f with
  | some m => (⟨500, .jsonMsgErr "Erro ao deletar arquivo" m⟩, s)
  | none => (⟨200, .jsonMsg "Arquivo deletado com sucesso"⟩,
             removeObject s bucket key)

/-! ## MySQL relational store -/

/-- State of the relational store and its connection pool: whether the
database and the `produto` table exist, the table rows, the next
`AUTO_INCREMENT` value, and how many pooled connections are currently
checked out. -/
structure MySQLState where
  dbExists : Bool
  tableExists : Bool
  products : List Product
  nextId : Nat
  checkedOut : Nat
deriving DecidableEq, Repr

/-- Fault schedule of one MySQL handler execution: every call succeeds, or
`pool.getConnection()` throws, or the `USE` statement throws, or the main
query throws — each carrying the raw error message `err.message`. -/
inductive MysqlFault where
  | ok
  | acquireThrows (msg : String)
  | useThrows (msg : String)
  | queryThrows (msg : String)
deriving DecidableEq, Repr

/-- Check a connection out of the pool (`pool.getConnection()`). -/
def acquire (s : MySQLState) : MySQLState :=
  { s with checkedOut := s.checkedOut + 1 }

/-- Return a connection to the pool (`connection.release()`). -/
def release (s : MySQLState) : MySQLState :=
  { s with checkedOut := s.checkedOut - 1 }

/-- Effect of the `/init-db` multi-statement query on success:
`CREATE DATABASE IF NOT EXISTS`, `USE`, `CREATE TABLE IF NOT EXISTS
produto` — existing schema (and rows) are kept, missing pieces created. -/
def createSchema (s : MySQLState) : MySQLState :=
  { s with dbExists := true, tableExists := true,
           products := if s.tableExists then s.products else [],
           nextId := if s.tableExists then s.nextId else 1 }

/-- The pool of `server.js` lines 22-28 is created without
`multipleStatements: true`; mysql2 defaults the option to false, so a
query string holding several SQL statements is rejected by the client. -/
def multipleStatements : Bool := false

/-- The error message of the client's rejection of a multi-statement query
string (modelled; the handler only forwards `err.message` verbatim). -/
def sqlSyntaxErrorMsg : String := "You have an error in your SQL syntax"

/-- Handler of `POST /init-db` (lines 281-300): acquire a connection, run
the schema-creation query, release, answer 200 text; a throwing query is
answered 500 with the raw error message (and no release happens). The
query string holds three statements (`CREATE DATABASE IF NOT EXISTS`,
`USE`, `CREATE TABLE IF NOT EXISTS`), so with the pool's
`multipleStatements` left at its false default the client rejects it and
even the fault-free execution takes the catch path; the intended schema
creation would run only were the option enabled. Both query-fault
constructors make the one combined query throw. -/
def initDb (f : MysqlFault) (s : MySQLState) : Resp × MySQLState :=
  match f with
  | .acquireThrows m => (⟨500, .jsonErr m⟩, s)
  | .useThrows m => (⟨500, .jsonErr m⟩, acquire s)
  | .queryThrows m => (⟨500, .jsonErr m⟩, acquire s)
  | .ok =>
      let s1 := acquire s
      if multipleStatements then
        let s2 := createSchema s1
        (⟨200, .text "Banco de dados e tabela criados com sucesso."⟩,
         release s2)
      else
        (⟨500, .jsonErr sqlSyntaxErrorMsg⟩, s1)

/-- Handler of `GET /produtos` (lines 302-312): acquire, `USE`, `SELECT *
FROM produto`, release, answer the rows; any throw is answered 500 with the
raw error message, without releasing an acquired connection. -/
def produtosList (f : MysqlFault) (s : MySQLState) : Resp × MySQLState :=
  match f with
  | .acquireThrows m => (⟨500, .jsonErr m⟩, s)
  | .useThrows m => (⟨500, .jsonErr m⟩, acquire s)
  | .queryThrows m => (⟨500, .jsonErr m⟩, acquire s)
  | .ok =>
      let s1 := release (acquire s)
      (⟨200, .jsonProducts s1.products⟩, s1)

/-- Handler of `GET /produtos/:id` (lines 314-325): acquire, `USE`,
`SELECT * FROM produto WHERE Id = ?`, release; no row answers 404,
otherwise 200 with the first row; any throw is answered 500 without
release. -/
def produtosGetById (id : Nat) (f : MysqlFault) (s : MySQLState) :
    Resp × MySQLState :=
  match f with
  | .acquireThrows m => (⟨500, .jsonErr m⟩, s)
  | .useThrows m => (⟨500, .jsonErr m⟩, acquire s)
  | .queryThrows m => (⟨500, .jsonErr m⟩, acquire s)
  | .ok =>
      let s1 := release (acquire s)
      match s1.products.filter (fun p => p.Id == id) with
      | [] => (⟨404, .jsonErr "Produto não encontrado"⟩, s1)
      | r :: _ => (⟨200, .jsonProduct r⟩, s1)

/-- Handler of `POST /produtos` (lines 327-341): acquire, `USE`, `INSERT`
of the three body fields, release, answer 201 with the generated id; any
throw is answered 500 without release. -/
def produtosCreate (nome descricao preco : String) (f : MysqlFault)
    (s : MySQLState) : Resp × MySQLState :=
  match f with
  | .acquireThrows m => (⟨500, .jsonErr m⟩, s)
  | .useThrows m => (⟨500, .jsonErr m⟩, acquire s)
  | .queryThrows m => (⟨500, .jsonErr m⟩, acquire s)
  | .ok =>
      let s1 := release (acquire s)
      (⟨201, .jsonId s1.nextId⟩,
       { s1 with products := s1.products ++ [⟨s1.nextId, nome, descricao, preco⟩],
                 nextId := s1.nextId + 1 })

/-- Handler of `PUT /produtos/:id` (lines 343-358): acquire, `USE`,
`UPDATE produto SET ... WHERE Id = ?`, release; zero affected rows answers
404, otherwise a fixed confirmation; any throw is answered 500 without
release. Without `CLIENT_FOUND_ROWS` (mysql2 default) `affectedRows`
counts the rows actually changed, so a same-value update of an existing
row also answers 404. -/
def produtosUpdate (id : Nat) (nome descricao preco : String)
    (f : MysqlFault) (s : MySQLState) : Resp × MySQLState :=
  match f with
  | .acquireThrows m => (⟨500, .jsonErr m⟩, s)
  | .useThrows m => (⟨500, .jsonErr m⟩, acquire s)
  | .queryThrows m => (⟨500, .jsonErr m⟩, acquire s)
  | .ok =>
      let affected := (s.products.filter (fun p =>
        p.Id == id && !(p.Nome == nome && p.Descricao == descricao &&
          p.Preco == preco))).length
      let s1 := release (acquire
        { s with products := s.products.map (fun p =>
            if p.Id == id then ⟨p.Id, nome, descricao, preco⟩ else p) })
      if affected == 0 then (⟨404, .jsonErr "Produto não encontrado"⟩, s1)
      else (⟨200, .jsonMsg "Produto atualizado com sucesso"⟩, s1)

/-- Handler of `DELETE /produtos/:id` (lines 360-371): acquire, `USE`,
`DELETE FROM produto WHERE Id = ?`, release; zero affected rows answers
404, otherwise a fixed confirmation; any throw is answered 500 without
release. -/
def produtosDelete (id : Nat) (f : MysqlFault) (s : MySQLState) :
    Resp × MySQLState :=
  match f with
  | .acquireThrows m => (⟨500, .jsonErr m⟩, s)
  | .useThrows m => (⟨500, .jsonErr m⟩, acquire s)
  | .queryThrows m => (⟨500, .jsonErr m⟩, acquire s)
  | .ok =>
      let affected := (s.products.filter (fun p => p.Id == id)).length
      let s1 := release (acquire
        { s with products := s.products.filter (fun p => p.Id != id) })
      if affected == 0 then (⟨404, .jsonErr "Produto não encontrado"⟩, s1)
      else (⟨200, .jsonMsg "Produto deletado com sucesso"⟩, s1)


/-! ## Helper lemmas -/

theorem hexVal_hexChar (n : Nat) (h : n < 16) : hexVal (hexChar n) = n := by
  interval_cases n <;> decide

theorem isHexDigit_hexChar (n : Nat) (h : n < 16) :
    isHexDigit (hexChar n) = true := by
  interval_cases n <;> decide

theorem length_encodeHex (w v : Nat) : (encodeHex w v).length = w := by
  induction w generalizing v with
  | zero => rfl
  | succ w ih => simp [encodeHex, ih]

theorem all_isHexDigit_encodeHex (w v : Nat) :
    (encodeHex w v).all isHexDigit = true := by
  induction w generalizing v with
  | zero => rfl
  | succ w ih =>
      simp only [encodeHex, List.all_cons, Bool.and_eq_true]
      exact ⟨isHexDigit_hexChar _ (Nat.mod_lt _ (by norm_num)), ih _⟩

theorem decodeHex_encodeHex (w v : Nat) (h : v < 16 ^ w) :
    decodeHex (encodeHex w v) = v := by
  induction w generalizing v with
  | zero =>
      have : v = 0 := by simpa using Nat.lt_one_iff.mp (by simpa using h)
      simp [this, encodeHex, decodeHex]
  | succ w ih =>
      have h16 : v % 16 < 16 := Nat.mod_lt _ (by norm_num)
      have hv : v / 16 < 16 ^ w := by
        rw [Nat.div_lt_iff_lt_mul (by norm_num)]
        calc v < 16 ^ (w + 1) := h
          _ = 16 ^ w * 16 := by ring
      simp only [encodeHex, decodeHex, hexVal_hexChar _ h16, ih _ hv]
      omega

theorem parseOId_oidToString (n : Nat) (h : n < 16 ^ 24) :
    parseOId (oidToString n) = some n := by
  simp [parseOId, oidToString, isValidObjectId, length_encodeHex,
        all_isHexDigit_encodeHex, decodeHex_encodeHex 24 n h]

theorem find?_append_left_none {α : Type} (p : α → Bool) (xs ys : List α)
    (h : ∀ x ∈ xs, p x = false) :
    List.find? p (xs ++ ys) = List.find? p ys := by
  induction xs with
  | nil => rfl
  | cons a l ih =>
      have ha := h a (by simp)
      simp only [List.cons_append, List.find?, ha]
      exact ih (fun x hx => h x (by simp [hx]))

theorem map_update_id_of_absent (id : Nat) (nome descricao preco : String)
    (l : List Product) (h : ∀ p ∈ l, p.Id ≠ id) :
    (l.map (fun p =>
      if p.Id = id then ⟨p.Id, nome, descricao, preco⟩ else p)) = l := by
  induction l with
  | nil => rfl
  | cons a l ih =>
      have ha : a.Id ≠ id := h a (by simp)
      simp only [List.map_cons, if_neg ha, List.cons.injEq, true_and]
      exact ih (fun p hp => h p (by simp [hp]))

theorem filter_eq_self_of_ne (id : Nat) (l : List Product)
    (h : ∀ p ∈ l, p.Id ≠ id) :
    (l.filter (fun p => p.Id != id)) = l := by
  rw [List.filter_eq_self]
  intro a ha
  simpa using h a ha

theorem filter_eq_nil_of_ne (id : Nat) (l : List Product)
    (h : ∀ p ∈ l, p.Id ≠ id) :
    (l.filter (fun p => p.Id == id)) = [] := by
  rw [List.filter_eq_nil_iff]
  intro a ha
  simpa using h a ha

/-! ## Claim theorems -/

/-- C1 (code bug): the `/init-db` query string holds three SQL statements
but the pool is configured without `multipleStatements`, so every
fault-free call takes the catch path: it answers 500 with the client's SQL
error, creates neither database nor table, leaves the rows untouched, and
leaks the acquired connection. The claimed 200-and-idempotent path is
unreachable in the program as configured. -/
theorem initDb_always_500 (s : MySQLState) :
    (initDb .ok s).1 = ⟨500, .jsonErr sqlSyntaxErrorMsg⟩ ∧
    (initDb .ok s).2.dbExists = s.dbExists ∧
    (initDb .ok s).2.tableExists = s.tableExists ∧
    (initDb .ok s).2.products = s.products ∧
    (initDb .ok s).2.checkedOut = s.checkedOut + 1 :=
  ⟨rfl, rfl, rfl, rfl, rfl⟩

/-- C2 (counterexample): the claim as stated fails on the program: a create
whose body holds the non-schema field `foo` is answered 201, but both the
stored document and the returned representation carry only the schema
field `nome` — the body is not persisted with all of its fields. -/
theorem usuariosCreate_asis_counterexample :
    (usuariosCreate [("nome", "a"), ("foo", "b")] .ok ⟨[], 1⟩).1 =
      ⟨201, .jsonUser ⟨1, [("nome", "a")]⟩⟩ ∧
    (usuariosCreate [("nome", "a"), ("foo", "b")] .ok ⟨[], 1⟩).2.docs =
      [⟨1, [("nome", "a")]⟩] ∧
    ([("nome", "a")] : List (String × String)) ≠
      [("nome", "a"), ("foo", "b")] :=
  ⟨by decide, by decide, by decide⟩

/-- C2 (amended): `POST /usuarios` persists the body's schema fields
(`nome`, `email`) — fields outside the mongoose schema are silently
dropped — and answers 201 with the stored representation carrying the
store-assigned identifier; a persistence failure of either kind
(validation or infrastructure) is answered with one and the same generic
internal error. -/
theorem usuariosCreate_spec (body : List (String × String)) (s : MongoState) :
    usuariosCreate body .ok s =
      (⟨201, .jsonUser ⟨s.nextId, stripToSchema body⟩⟩,
       ⟨s.docs ++ [⟨s.nextId, stripToSchema body⟩], s.nextId + 1⟩) ∧
    usuariosCreate body .validationError s =
      (⟨500, .text "Ocorreu um erro interno"⟩, s) ∧
    usuariosCreate body .infraError s =
      usuariosCreate body .validationError s :=
  ⟨rfl, rfl, rfl⟩

/-- C4: in every relational-store handler other than `/init-db`, a query
throwing after the connection is acquired (at the `USE` statement or at the
main query) makes the handler answer 500 while the pool's checked-out count
stays incremented: the connection is not released on the error path. -/
theorem mysql_connection_leak_on_error (m : String) (id : Nat)
    (nome descricao preco : String) (s : MySQLState) :
    ((produtosList (.useThrows m) s).1.status = 500 ∧
     (produtosList (.useThrows m) s).2.checkedOut = s.checkedOut + 1) ∧
    ((produtosList (.queryThrows m) s).1.status = 500 ∧
     (produtosList (.queryThrows m) s).2.checkedOut = s.checkedOut + 1) ∧
    ((produtosGetById id (.useThrows m) s).1.status = 500 ∧
     (produtosGetById id (.useThrows m) s).2.checkedOut = s.checkedOut + 1) ∧
    ((produtosGetById id (.queryThrows m) s).1.status = 500 ∧
     (produtosGetById id (.queryThrows m) s).2.checkedOut = s.checkedOut + 1) ∧
    ((produtosCreate nome descricao preco (.useThrows m) s).1.status = 500 ∧
     (produtosCreate nome descricao preco (.useThrows m) s).2.checkedOut
       = s.checkedOut + 1) ∧
    ((produtosCreate nome descricao preco (.queryThrows m) s).1.status = 500 ∧
     (produtosCreate nome descricao preco (.queryThrows m) s).2.checkedOut
       = s.checkedOut + 1) ∧
    ((produtosUpdate id nome descricao preco (.useThrows m) s).1.status = 500 ∧
     (produtosUpdate id nome descricao preco (.useThrows m) s).2.checkedOut
       = s.checkedOut + 1) ∧
    ((produtosUpdate id nome descricao preco (.queryThrows m) s).1.status = 500 ∧
     (produtosUpdate id nome descricao preco (.queryThrows m) s).2.checkedOut
       = s.checkedOut + 1) ∧
    ((produtosDelete id (.useThrows m) s).1.status = 500 ∧
     (produtosDelete id (.useThrows m) s).2.checkedOut = s.checkedOut + 1) ∧
    ((produtosDelete id (.queryThrows m) s).1.status = 500 ∧
     (produtosDelete id (.queryThrows m) s).2.checkedOut = s.checkedOut + 1) :=
  ⟨⟨rfl, rfl⟩, ⟨rfl, rfl⟩, ⟨rfl, rfl⟩, ⟨rfl, rfl⟩, ⟨rfl, rfl⟩,
   ⟨rfl, rfl⟩, ⟨rfl, rfl⟩, ⟨rfl, rfl⟩, ⟨rfl, rfl⟩, ⟨rfl, rfl⟩⟩

/-- C5: `DELETE /buckets/:bucketName/file/:fileName` is idempotent from the
gateway's perspective: any execution whose backing-store delete call does
not throw answers 200 with the same fixed success message, for every bucket
and key and independently of whether the object exists in the store
state. -/
theorem bucketFileDelete_idempotent (bucket key : String) (s t : S3State) :
    (bucketFileDelete bucket key none s).1 =
      ⟨200, .jsonMsg "Arquivo deletado com sucesso"⟩ ∧
    (bucketFileDelete bucket key none s).1 =
      (bucketFileDelete bucket key none t).1 :=
  ⟨rfl, rfl⟩

/-- C6: `POST /buckets/:bucketName/upload` with no multipart file field
answers 400, performs no object-storage call, and leaves the storage state
unchanged — for every bucket and every fault schedule. -/
theorem bucketUpload_noFile (bucket : String) (f : S3Fault) (s : S3State) :
    bucketUpload bucket none f s =
      (⟨400, .jsonMsg "Nenhum arquivo enviado."⟩, s, []) :=
  rfl

/-- C9: all four object-storage handlers map a throwing backing-store call
to HTTP 500 with the raw underlying error message included verbatim in the
response body. -/
theorem s3_errors_propagate_raw (m bucket key : String) (fl : FileUpload)
    (s : S3State) :
    bucketsList (some m) s =
      (⟨500, .jsonErrDetails "Erro ao listar buckets" m⟩, s) ∧
    bucketObjectsList bucket (some m) s =
      (⟨500, .jsonErrDetails "Erro ao listar objetos do bucket" m⟩, s) ∧
    bucketUpload bucket (some fl) (some m) s =
      (⟨500, .jsonMsgErr "Erro no upload" m⟩, s,
       [.upload bucket fl.originalname]) ∧
    bucketFileDelete bucket key (some m) s =
      (⟨500, .jsonMsgErr "Erro ao deletar arquivo" m⟩, s) :=
  ⟨rfl, rfl, rfl, rfl⟩

/-- C3 (counterexample): in the empty document store the identifier string
abc names no existing record, yet a fault-free `DELETE /usuarios/abc`
answers 500 (the store's cast of the malformed id throws, and the handler
catches it as a generic error), not 404 — so the claim as stated fails on
the document-store side. -/
theorem delete_nonexistent_counterexample :
    (⟨[], 1⟩ : MongoState).docs = [] ∧
    (usuariosDelete "abc" .ok ⟨[], 1⟩).1.status = 500 ∧
    (usuariosDelete "abc" .ok ⟨[], 1⟩).1.status ≠ 404 :=
  ⟨rfl, by decide, by decide⟩

/-- C3 (amended): for every well-formed identifier that does not name an
existing record, fault-free `DELETE /usuarios/:id` answers 404 (and for
every product id absent from the table, fault-free `DELETE /produtos/:id`
answers 404), never 500; when a record is deleted, each answers its fixed
confirmation message. -/
theorem delete_notFound_spec (idStr : String) (i : Nat) (ms : MongoState)
    (pid : Nat) (qs : MySQLState) (hparse : parseOId idStr = some i) :
    ((∀ u ∈ ms.docs, u.id ≠ i) →
      usuariosDelete idStr .ok ms =
        (⟨404, .text "Usuário não encontrado"⟩, ms)) ∧
    ((∃ u ∈ ms.docs, u.id = i) →
      (usuariosDelete idStr .ok ms).1 =
        ⟨200, .jsonMsg "Usuário removido com sucesso"⟩) ∧
    ((∀ p ∈ qs.products, p.Id ≠ pid) →
      produtosDelete pid .ok qs =
        (⟨404, .jsonErr "Produto não encontrado"⟩, qs)) ∧
    ((∃ p ∈ qs.products, p.Id = pid) →
      (produtosDelete pid .ok qs).1 =
        ⟨200, .jsonMsg "Produto deletado com sucesso"⟩) := by
  refine ⟨?_, ?_, ?_, ?_⟩
  · intro habs
    have hany : ms.docs.any (fun u => u.id == i) = false := by
      rw [List.any_eq_false]
      intro u hu
      simpa using habs u hu
    simp [usuariosDelete, hparse, hany]
  · rintro ⟨u, hu, hid⟩
    have hany : ms.docs.any (fun v => v.id == i) = true :=
      List.any_eq_true.mpr ⟨u, hu, by simpa using hid⟩
    simp [usuariosDelete, hparse, hany]
  · intro habs
    have hfil := filter_eq_nil_of_ne pid qs.products habs
    have hfil2 := filter_eq_self_of_ne pid qs.products habs
    simp [produtosDelete, acquire, release, hfil, hfil2]
  · rintro ⟨p, hp, hid⟩
    have hne : ((qs.products.filter (fun q => q.Id == pid)).length == 0)
        = false := by
      simp only [beq_eq_false_iff_ne, Ne, List.length_eq_zero,
        List.filter_eq_nil_iff, not_forall]
      exact ⟨p, hp, by simpa using hid⟩
    simp [produtosDelete, acquire, release, hne]

/-- C3 (witness): the amended claim at concrete inputs: a valid ObjectId
string absent from a one-document store, and a product id absent from a
one-row table. -/
theorem delete_notFound_spec_witness :
    parseOId "100000000000000000000000" = some 1 ∧
    ((∀ u ∈ (⟨[⟨2, []⟩], 3⟩ : MongoState).docs, u.id ≠ 1) →
      usuariosDelete "100000000000000000000000" .ok ⟨[⟨2, []⟩], 3⟩ =
        (⟨404, .text "Usuário não encontrado"⟩, ⟨[⟨2, []⟩], 3⟩)) ∧
    ((∃ u ∈ (⟨[⟨2, []⟩], 3⟩ : MongoState).docs, u.id = 1) →
      (usuariosDelete "100000000000000000000000" .ok ⟨[⟨2, []⟩], 3⟩).1 =
        ⟨200, .jsonMsg "Usuário removido com sucesso"⟩) ∧
    ((∀ p ∈ (⟨true, true, [⟨2, "a", "b", "c"⟩], 3, 0⟩ : MySQLState).products,
        p.Id ≠ 1) →
      produtosDelete 1 .ok ⟨true, true, [⟨2, "a", "b", "c"⟩], 3, 0⟩ =
        (⟨404, .jsonErr "Produto não encontrado"⟩,
         ⟨true, true, [⟨2, "a", "b", "c"⟩], 3, 0⟩)) ∧
    ((∃ p ∈ (⟨true, true, [⟨2, "a", "b", "c"⟩], 3, 0⟩ : MySQLState).products,
        p.Id = 1) →
      (produtosDelete 1 .ok ⟨true, true, [⟨2, "a", "b", "c"⟩], 3, 0⟩).1 =
        ⟨200, .jsonMsg "Produto deletado com sucesso"⟩) :=
  ⟨by decide,
   delete_notFound_spec "100000000000000000000000" 1 ⟨[⟨2, []⟩], 3⟩ 1
     ⟨true, true, [⟨2, "a", "b", "c"⟩], 3, 0⟩ (by decide)⟩

/-- C7 (counterexample): the claim as stated fails on the program for user
creates: a valid create whose body holds the non-schema field `foo`
answers 201, but the immediate get-by-id with the returned identifier
yields a record without that field — not a record equal to what was
submitted. -/
theorem create_roundtrip_counterexample :
    (usuariosCreate [("nome", "x"), ("foo", "y")] .ok ⟨[], 1⟩).1.status
      = 201 ∧
    (usuariosGetById (oidToString 1) .ok
        (usuariosCreate [("nome", "x"), ("foo", "y")] .ok ⟨[], 1⟩).2).1 =
      ⟨200, .jsonUser ⟨1, [("nome", "x")]⟩⟩ ∧
    (⟨1, [("nome", "x")]⟩ : UserDoc) ≠ ⟨1, [("nome", "x"), ("foo", "y")]⟩ :=
  ⟨by decide, by decide, by decide⟩

/-- C7 (amended): round-trip for creates: a fault-free product create
answers 201 with the generated id, and getting that id right afterwards
answers 200 with exactly the submitted fields under that id; a fault-free
user create answers 201 with the stored document — the body's schema
fields, non-schema fields having been dropped at create — and getting its
serialized identifier right afterwards returns that same stored
document. -/
theorem create_then_get_roundtrip (nome descricao preco : String)
    (qs : MySQLState) (body : List (String × String)) (ms : MongoState)
    (hq : ∀ p ∈ qs.products, p.Id ≠ qs.nextId)
    (hm : ∀ u ∈ ms.docs, u.id ≠ ms.nextId)
    (hsmall : ms.nextId < 16 ^ 24) :
    (produtosCreate nome descricao preco .ok qs).1 = ⟨201, .jsonId qs.nextId⟩ ∧
    (produtosGetById qs.nextId .ok
        (produtosCreate nome descricao preco .ok qs).2).1 =
      ⟨200, .jsonProduct ⟨qs.nextId, nome, descricao, preco⟩⟩ ∧
    (usuariosCreate body .ok ms).1 =
      ⟨201, .jsonUser ⟨ms.nextId, stripToSchema body⟩⟩ ∧
    (usuariosGetById (oidToString ms.nextId) .ok
        (usuariosCreate body .ok ms).2).1 =
      ⟨200, .jsonUser ⟨ms.nextId, stripToSchema body⟩⟩ := by
  refine ⟨rfl, ?_, rfl, ?_⟩
  · have hfil := filter_eq_nil_of_ne qs.nextId qs.products hq
    simp [produtosCreate, produtosGetById, acquire, release,
          List.filter_append, hfil]
  · have hnone : List.find? (fun u => u.id == ms.nextId) ms.docs = none := by
      rw [List.find?_eq_none]
      intro u hu
      simpa using hm u hu
    simp [usuariosCreate, usuariosGetById, parseOId_oidToString _ hsmall, hnone]

/-- C7 (witness): the round trip at concrete inputs: empty stores, a
product with three concrete fields and a user body with one field. -/
theorem create_then_get_roundtrip_witness :
    (∀ p ∈ (⟨true, true, [], 1, 0⟩ : MySQLState).products, p.Id ≠ 1) ∧
    (∀ u ∈ (⟨[], 1⟩ : MongoState).docs, u.id ≠ 1) ∧
    (1 : Nat) < 16 ^ 24 ∧
    ((produtosCreate "Produto A" "desc" "9.90" .ok ⟨true, true, [], 1, 0⟩).1 =
      ⟨201, .jsonId 1⟩ ∧
     (produtosGetById 1 .ok
        (produtosCreate "Produto A" "desc" "9.90" .ok
          ⟨true, true, [], 1, 0⟩).2).1 =
      ⟨200, .jsonProduct ⟨1, "Produto A", "desc", "9.90"⟩⟩ ∧
     (usuariosCreate [("nome", "x")] .ok ⟨[], 1⟩).1 =
      ⟨201, .jsonUser ⟨1, stripToSchema [("nome", "x")]⟩⟩ ∧
     (usuariosGetById (oidToString 1) .ok
        (usuariosCreate [("nome", "x")] .ok ⟨[], 1⟩).2).1 =
      ⟨200, .jsonUser ⟨1, stripToSchema [("nome", "x")]⟩⟩) :=
  ⟨by decide, by decide, by norm_num,
   create_then_get_roundtrip "Produto A" "desc" "9.90" ⟨true, true, [], 1, 0⟩
     [("nome", "x")] ⟨[], 1⟩ (by decide) (by decide) (by norm_num)⟩

/-- C8: `PUT /produtos/:id` with an id absent from the table, executed
fault-free, answers 404 and leaves the whole store state unchanged: no row
inserted, removed or modified, next id and pool untouched. -/
theorem produtosUpdate_notFound (id : Nat) (nome descricao preco : String)
    (s : MySQLState) (habs : ∀ p ∈ s.products, p.Id ≠ id) :
    produtosUpdate id nome descricao preco .ok s =
      (⟨404, .jsonErr "Produto não encontrado"⟩, s) := by
  have hmap := map_update_id_of_absent id nome descricao preco s.products habs
  simp [produtosUpdate, acquire, release, hmap]
  intro x hx hxid
  exact absurd hxid (habs x hx)

/-- C8 (witness): the update-miss frame property at a concrete one-row
table and an absent id. -/
theorem produtosUpdate_notFound_witness :
    (∀ p ∈ (⟨true, true, [⟨1, "a", "b", "c"⟩], 2, 0⟩ : MySQLState).products,
      p.Id ≠ 7) ∧
    produtosUpdate 7 "x" "y" "z" .ok ⟨true, true, [⟨1, "a", "b", "c"⟩], 2, 0⟩ =
      (⟨404, .jsonErr "Produto não encontrado"⟩,
       ⟨true, true, [⟨1, "a", "b", "c"⟩], 2, 0⟩) :=
  ⟨by decide,
   produtosUpdate_notFound 7 "x" "y" "z"
     ⟨true, true, [⟨1, "a", "b", "c"⟩], 2, 0⟩ (by decide)⟩

/-- C10: for every `:id` route parameter that is not a well-formed
document-store identifier, fault-free GET, PUT and DELETE on
`/usuarios/:id` answer 500 with the generic internal-error message; and in
all three handlers the 404 branch is reachable only on a fault-free
execution whose identifier cast succeeds and whose store holds no matching
record. -/
theorem usuarios_invalid_id_500 (idStr : String)
    (body : List (String × String)) (s : MongoState)
    (hinv : isValidObjectId idStr = false) :
    ((usuariosGetById idStr .ok s).1 = ⟨500, .text "Ocorreu um erro interno"⟩ ∧
     (usuariosUpdate idStr body .ok s).1 =
       ⟨500, .text "Ocorreu um erro interno"⟩ ∧
     (usuariosDelete idStr .ok s).1 =
       ⟨500, .text "Ocorreu um erro interno"⟩) ∧
    (∀ (t : String) (f : MongoFault) (w : MongoState),
      ((usuariosGetById t f w).1.status = 404 ∨
       (usuariosUpdate t body f w).1.status = 404 ∨
       (usuariosDelete t f w).1.status = 404) →
      f = .ok ∧ ∃ i, parseOId t = some i ∧ ∀ u ∈ w.docs, u.id ≠ i) := by
  have hnone : parseOId idStr = none := by simp [parseOId, hinv]
  constructor
  · exact ⟨by simp [usuariosGetById, hnone],
      by simp [usuariosUpdate, hnone], by simp [usuariosDelete, hnone]⟩
  · intro t f w h404
    cases f with
    | ok =>
        refine ⟨rfl, ?_⟩
        cases hp : parseOId t with
        | none =>
            exfalso
            rcases h404 with h | h | h <;>
              simp [usuariosGetById, usuariosUpdate, usuariosDelete, hp] at h
        | some i =>
            refine ⟨i, rfl, ?_⟩
            intro u hu hid
            have hfind : w.docs.find? (fun v => v.id == i) ≠ none := by
              rw [Ne, List.find?_eq_none]
              push_neg
              exact ⟨u, hu, by simpa using hid⟩
            have hany : w.docs.any (fun v => v.id == i) = true :=
              List.any_eq_true.mpr ⟨u, hu, by simpa using hid⟩
            rcases h404 with h | h | h
            · rcases hfd : w.docs.find? (fun v => v.id == i) with _ | v
              · exact hfind hfd
              · simp [usuariosGetById, hp, hfd] at h
            · rcases hfd : w.docs.find? (fun v => v.id == i) with _ | v
              · exact hfind hfd
              · simp [usuariosUpdate, hp, hfd] at h
            · simp [usuariosDelete, hp, hany] at h
    | validationError =>
        exfalso
        rcases h404 with h | h | h <;>
          simp [usuariosGetById, usuariosUpdate, usuariosDelete] at h
    | infraError =>
        exfalso
        rcases h404 with h | h | h <;>
          simp [usuariosGetById, usuariosUpdate, usuariosDelete] at h

/-- C10 (witness): the malformed-identifier behavior at the concrete
parameter abc and a concrete store. -/
theorem usuarios_invalid_id_500_witness :
    isValidObjectId "abc" = false ∧
    (((usuariosGetById "abc" .ok ⟨[], 1⟩).1 =
        ⟨500, .text "Ocorreu um erro interno"⟩ ∧
      (usuariosUpdate "abc" [] .ok ⟨[], 1⟩).1 =
        ⟨500, .text "Ocorreu um erro interno"⟩ ∧
      (usuariosDelete "abc" .ok ⟨[], 1⟩).1 =
        ⟨500, .text "Ocorreu um erro interno"⟩) ∧
     (∀ (t : String) (f : MongoFault) (w : MongoState),
       ((usuariosGetById t f w).1.status = 404 ∨
        (usuariosUpdate t [] f w).1.status = 404 ∨
        (usuariosDelete t f w).1.status = 404) →
       f = .ok ∧ ∃ i, parseOId t = some i ∧ ∀ u ∈ w.docs, u.id ≠ i)) :=
  ⟨by decide, usuarios_invalid_id_500 "abc" [] ⟨[], 1⟩ (by decide)⟩
